import Mathlib

set_option maxHeartbeats 1000000

/-- Width bound of the unsigned 256-bit integers (Rust `U256`) used for gas prices. -/
def U256.size : Nat := 2 ^ 256

/-- Checked `U256` multiplication. Rust `U256` multiplication panics on overflow,
which we model as `none`. -/
def u256Mul (a b : Nat) : Option Nat :=
  if a * b < U256.size then some (a * b) else none

/-- Checked `U256` addition. Rust `U256` addition panics on overflow, modelled as `none`. -/
def u256Add (a b : Nat) : Option Nat :=
  if a + b < U256.size then some (a + b) else none

/-- Checked `U256` division. Rust `U256` division panics on division by zero,
modelled as `none`; otherwise it is floor division. -/
def u256Div (a b : Nat) : Option Nat :=
  if b = 0 then none else some (a / b)

/-- Embedding of `GasPrice` (from `gas_price/price.rs`, whose variants are fully
determined by the exhaustive match in `escalate_gas_price_if_needed` together with
spec section 3): `None` (absent), `NonEip1559 { gas_price }` (single scalar price),
`Eip1559 { max_fee, max_priority_fee }` (dual price). `U256` fields become `Nat`. -/
inductive GasPrice where
  | None : GasPrice
  | NonEip1559 (gas_price : Nat) : GasPrice
  | Eip1559 (max_fee max_priority_fee : Nat) : GasPrice
deriving DecidableEq, Repr

/-- Embedding of `GasEscalatorConfig` from `escalator.rs`. The Rust fields are `u32`;
here they are `Nat`, with the `u32` range made explicit where a proof needs it. -/
structure GasEscalatorConfig where
  escalation_multiplier_numerator : Nat
  escalation_multiplier_denominator : Nat
  twap_history_weight : Nat
  twap_current_weight : Nat
deriving DecidableEq, Repr

/-- Embedding of `impl Default for GasEscalatorConfig`. -/
def GasEscalatorConfig.default : GasEscalatorConfig :=
  { escalation_multiplier_numerator := 110
    escalation_multiplier_denominator := 100
    twap_history_weight := 3
    twap_current_weight := 1 }

/-- Embedding of `apply_escalation_multiplier`: `gas_price * numerator / denominator`
on `U256`, with the overflow panic of the multiplication and the division-by-zero
panic modelled through the checked operations. -/
def apply_escalation_multiplier (gas_price : Nat) (config : GasEscalatorConfig) : Option Nat :=
  (u256Mul gas_price config.escalation_multiplier_numerator).bind fun p =>
  u256Div p config.escalation_multiplier_denominator

/-- Embedding of `get_escalated_price_from_old_and_new`: blend the old and new price
with the configured weights, apply the escalation multiplier to the blend and to the
fresh oracle price, and return the max. The `Option` chain mirrors Rust's
left-to-right evaluation order of the panicking `U256` operations. -/
def get_escalated_price_from_old_and_new (old_gas_price new_gas_price : Nat)
    (config : GasEscalatorConfig) : Option Nat :=
  (u256Mul old_gas_price config.twap_history_weight).bind fun a =>
  (u256Mul new_gas_price config.twap_current_weight).bind fun b =>
  (u256Add a b).bind fun s =>
  (u256Add config.twap_history_weight config.twap_current_weight).bind fun w =>
  (u256Div s w).bind fun blended =>
  (apply_escalation_multiplier blended config).bind fun escalated_from_history =>
  (apply_escalation_multiplier new_gas_price config).map fun escalated_from_oracle =>
  max escalated_from_history escalated_from_oracle

/-- Embedding of `escalate_gas_price_if_needed`. The match arms are in the source's
order: absent old price, absent estimated price, both `NonEip1559`, both `Eip1559`,
and the catch-all mismatch arm. The result is `Option GasPrice` because the
arithmetic in the matched arms may panic. -/
def escalate_gas_price_if_needed (old_gas_price estimated_gas_price : GasPrice)
    (config : GasEscalatorConfig) : Option GasPrice :=
  match old_gas_price, estimated_gas_price with
  | GasPrice.None, _ => some GasPrice.None
  | _, GasPrice.None => some GasPrice.None
  | GasPrice.NonEip1559 old, GasPrice.NonEip1559 est =>
      (get_escalated_price_from_old_and_new old est config).map fun p =>
        GasPrice.NonEip1559 p
  | GasPrice.Eip1559 old_max_fee old_max_priority_fee,
      GasPrice.Eip1559 new_max_fee new_max_priority_fee =>
      (get_escalated_price_from_old_and_new old_max_fee new_max_fee config).bind fun mf =>
      (get_escalated_price_from_old_and_new old_max_priority_fee new_max_priority_fee
        config).map fun pf =>
      GasPrice.Eip1559 mf pf
  | _, _ => some GasPrice.None

/-- Embedding of the four gas-escalator fields of `TransactionOverrides`
(from `hyperlane_ethereum`); each is an optional `U256` value, modelled as
`Option Nat`. Other fields of the Rust struct play no role in the escalator. -/
structure TransactionOverrides where
  gas_escalator_multiplier_numerator : Option Nat
  gas_escalator_multiplier_denominator : Option Nat
  gas_escalator_history_weight : Option Nat
  gas_escalator_current_weight : Option Nat
deriving DecidableEq, Repr

/-- Rust `U256::as_u32` panics when the value does not fit in 32 bits; modelled
as a checked conversion. -/
def as_u32 (v : Nat) : Option Nat :=
  if v < 2 ^ 32 then some v else none

/-- One field of the override resolution: `field.map(as_u32).unwrap_or(dflt)`
with the panic of `as_u32` modelled through `Option`. -/
def resolve_override_field (field : Option Nat) (dflt : Nat) : Option Nat :=
  match field with
  | some v => as_u32 v
  | none => some dflt

/-- Embedding of `impl From<&TransactionOverrides> for GasEscalatorConfig`: each of
the four fields independently takes the override value when set (converted through
`as_u32`) and the default otherwise. -/
def GasEscalatorConfig.from_overrides (overrides : TransactionOverrides) :
    Option GasEscalatorConfig :=
  (resolve_override_field overrides.gas_escalator_multiplier_numerator
      GasEscalatorConfig.default.escalation_multiplier_numerator).bind fun num =>
  (resolve_override_field overrides.gas_escalator_multiplier_denominator
      GasEscalatorConfig.default.escalation_multiplier_denominator).bind fun den =>
  (resolve_override_field overrides.gas_escalator_history_weight
      GasEscalatorConfig.default.twap_history_weight).bind fun hw =>
  (resolve_override_field overrides.gas_escalator_current_weight
      GasEscalatorConfig.default.twap_current_weight).map fun cw =>
  { escalation_multiplier_numerator := num
    escalation_multiplier_denominator := den
    twap_history_weight := hw
    twap_current_weight := cw }

/-- The pure closed form of the escalated scalar, used to reason about
`get_escalated_price_from_old_and_new` once all checks are known to pass. -/
def escalatedValue (old_gas_price new_gas_price : Nat) (config : GasEscalatorConfig) : Nat :=
  max ((old_gas_price * config.twap_history_weight
          + new_gas_price * config.twap_current_weight)
        / (config.twap_history_weight + config.twap_current_weight)
        * config.escalation_multiplier_numerator
        / config.escalation_multiplier_denominator)
      (new_gas_price * config.escalation_multiplier_numerator
        / config.escalation_multiplier_denominator)

/-- Characterization of the checked computation: it succeeds exactly when every
overflow and division-by-zero check passes, and then returns `escalatedValue`. -/
lemma get_escalated_eq_some_iff (old_gas_price new_gas_price r : Nat)
    (config : GasEscalatorConfig) :
    get_escalated_price_from_old_and_new old_gas_price new_gas_price config = some r ↔
      (old_gas_price * config.twap_history_weight < U256.size ∧
       new_gas_price * config.twap_current_weight < U256.size ∧
       old_gas_price * config.twap_history_weight
         + new_gas_price * config.twap_current_weight < U256.size ∧
       config.twap_history_weight + config.twap_current_weight < U256.size ∧
       config.twap_history_weight + config.twap_current_weight ≠ 0 ∧
       (old_gas_price * config.twap_history_weight
          + new_gas_price * config.twap_current_weight)
         / (config.twap_history_weight + config.twap_current_weight)
         * config.escalation_multiplier_numerator < U256.size ∧
       config.escalation_multiplier_denominator ≠ 0 ∧
       new_gas_price * config.escalation_multiplier_numerator < U256.size) ∧
      r = escalatedValue old_gas_price new_gas_price config := by
  simp only [get_escalated_price_from_old_and_new, apply_escalation_multiplier,
    u256Mul, u256Add, u256Div, Option.bind_eq_some, Option.map_eq_some',
    Option.ite_none_right_eq_some, Option.ite_none_left_eq_some, Option.some.injEq,
    escalatedValue]
  constructor
  · rintro ⟨a, ⟨ha, rfl⟩, b, ⟨hb, rfl⟩, s, ⟨hs, rfl⟩, w, ⟨hw, rfl⟩, bl, ⟨hw0, rfl⟩,
      eh, ⟨p, ⟨hp, rfl⟩, hd, rfl⟩, eo, ⟨q, ⟨hq, rfl⟩, hd2, rfl⟩, hr⟩
    exact ⟨⟨ha, hb, hs, hw, hw0, hp, hd, hq⟩, hr.symm⟩
  · rintro ⟨⟨ha, hb, hs, hw, hw0, hp, hd, hq⟩, rfl⟩
    exact ⟨_, ⟨ha, rfl⟩, _, ⟨hb, rfl⟩, _, ⟨hs, rfl⟩, _, ⟨hw, rfl⟩, _, ⟨hw0, rfl⟩,
      _, ⟨_, ⟨hp, rfl⟩, hd, rfl⟩, _, ⟨_, ⟨hq, rfl⟩, hd, rfl⟩, rfl⟩

/-- The checked computation, when it succeeds, returns exactly `escalatedValue`. -/
lemma get_escalated_some_value (old_gas_price new_gas_price r : Nat)
    (config : GasEscalatorConfig)
    (h : get_escalated_price_from_old_and_new old_gas_price new_gas_price config = some r) :
    r = escalatedValue old_gas_price new_gas_price config :=
  ((get_escalated_eq_some_iff old_gas_price new_gas_price r config).1 h).2

/-- Scalar oracle floor: any successfully escalated scalar is at least the fresh
oracle price put through the multiplier. -/
lemma get_escalated_oracle_floor (old_gas_price new_gas_price r : Nat)
    (config : GasEscalatorConfig)
    (h : get_escalated_price_from_old_and_new old_gas_price new_gas_price config = some r) :
    new_gas_price * config.escalation_multiplier_numerator
      / config.escalation_multiplier_denominator ≤ r := by
  rw [get_escalated_some_value old_gas_price new_gas_price r config h, escalatedValue]
  exact le_max_right _ _

/-- Inversion of the `NonEip1559`/`NonEip1559` arm of `escalate_gas_price_if_needed`. -/
lemma escalate_nonEip1559_eq_some (o n : Nat) (config : GasEscalatorConfig) (g : GasPrice) :
    escalate_gas_price_if_needed (GasPrice.NonEip1559 o) (GasPrice.NonEip1559 n) config
        = some g ↔
      ∃ p, get_escalated_price_from_old_and_new o n config = some p ∧
        g = GasPrice.NonEip1559 p := by
  simp only [escalate_gas_price_if_needed, Option.map_eq_some']
  constructor <;> rintro ⟨p, hp, rfl⟩ <;> exact ⟨p, hp, rfl⟩

/-- Inversion of the `Eip1559`/`Eip1559` arm of `escalate_gas_price_if_needed`. -/
lemma escalate_eip1559_eq_some (a b c d : Nat) (config : GasEscalatorConfig) (g : GasPrice) :
    escalate_gas_price_if_needed (GasPrice.Eip1559 a b) (GasPrice.Eip1559 c d) config
        = some g ↔
      ∃ mf pf, get_escalated_price_from_old_and_new a c config = some mf ∧
        get_escalated_price_from_old_and_new b d config = some pf ∧
        g = GasPrice.Eip1559 mf pf := by
  simp only [escalate_gas_price_if_needed, Option.bind_eq_some, Option.map_eq_some']
  constructor
  · rintro ⟨mf, hmf, pf, hpf, rfl⟩
    exact ⟨mf, pf, hmf, hpf, rfl⟩
  · rintro ⟨mf, pf, hmf, hpf, rfl⟩
    exact ⟨mf, hmf, pf, hpf, rfl⟩

/-- C1: with the default configuration (history weight 3, current weight 1,
multiplier 110/100), escalating a single-price record with old price 200000 and new
estimated price 219000 returns a single-price record with scalar exactly 240900. -/
theorem twap_escalates_beyond_new_price :
    escalate_gas_price_if_needed (GasPrice.NonEip1559 200000) (GasPrice.NonEip1559 219000)
        GasEscalatorConfig.default = some (GasPrice.NonEip1559 240900) ∧
      get_escalated_price_from_old_and_new 200000 219000 GasEscalatorConfig.default
        = some 240900 := by
  constructor <;> rfl

/-- C10: the escalated result is not guaranteed to be at least the old price: with
the default configuration, old price 1000 and new price 0 escalate to 825, which is
strictly below the old price. -/
theorem escalated_price_can_drop_below_old_price :
    get_escalated_price_from_old_and_new 1000 0 GasEscalatorConfig.default = some 825 ∧
      825 < 1000 := by
  constructor <;> first | rfl | decide

/-- C4: absence propagates: escalating with an absent old price or an absent
estimated price yields the absent price, for every other record and configuration. -/
theorem absence_propagates (X : GasPrice) (config : GasEscalatorConfig) :
    escalate_gas_price_if_needed GasPrice.None X config = some GasPrice.None ∧
      escalate_gas_price_if_needed X GasPrice.None config = some GasPrice.None := by
  cases X <;> exact ⟨rfl, rfl⟩

/-- C5: mismatched variants (single-price vs dual-price, in either order) always
yield the absent price — no panic and no fabricated value, for every input and
configuration. -/
theorem variant_mismatch_yields_none (a b c d e f : Nat) (config : GasEscalatorConfig) :
    escalate_gas_price_if_needed (GasPrice.NonEip1559 a) (GasPrice.Eip1559 b c) config
        = some GasPrice.None ∧
      escalate_gas_price_if_needed (GasPrice.Eip1559 d e) (GasPrice.NonEip1559 f) config
        = some GasPrice.None :=
  ⟨rfl, rfl⟩

/-- C2: the oracle floor is never violated: every escalated scalar produced for a
matching pair of non-absent price records is at least the corresponding new price
times the multiplier (floor division). -/
theorem escalation_respects_oracle_floor (config : GasEscalatorConfig) :
    (∀ o n r, escalate_gas_price_if_needed (GasPrice.NonEip1559 o) (GasPrice.NonEip1559 n)
        config = some (GasPrice.NonEip1559 r) →
      n * config.escalation_multiplier_numerator
        / config.escalation_multiplier_denominator ≤ r) ∧
    (∀ omf opf nmf npf mf pf,
      escalate_gas_price_if_needed (GasPrice.Eip1559 omf opf) (GasPrice.Eip1559 nmf npf)
          config = some (GasPrice.Eip1559 mf pf) →
        nmf * config.escalation_multiplier_numerator
          / config.escalation_multiplier_denominator ≤ mf ∧
        npf * config.escalation_multiplier_numerator
          / config.escalation_multiplier_denominator ≤ pf) := by
  constructor
  · intro o n r h
    obtain ⟨p, hp, hr⟩ := (escalate_nonEip1559_eq_some o n config _).1 h
    cases hr
    exact get_escalated_oracle_floor o n r config hp
  · intro omf opf nmf npf mf pf h
    obtain ⟨mf', pf', hmf, hpf, hr⟩ := (escalate_eip1559_eq_some omf opf nmf npf config _).1 h
    cases hr
    exact ⟨get_escalated_oracle_floor omf nmf mf config hmf,
      get_escalated_oracle_floor opf npf pf config hpf⟩

/-- C2 witness: the oracle-floor theorem applied at the concrete regression input. -/
theorem escalation_respects_oracle_floor_witness :
    219000 * GasEscalatorConfig.default.escalation_multiplier_numerator
        / GasEscalatorConfig.default.escalation_multiplier_denominator ≤ 240900 :=
  (escalation_respects_oracle_floor GasEscalatorConfig.default).1 200000 219000 240900 rfl

/-- Monotonicity of the closed-form escalated value in the new price. -/
lemma escalatedValue_mono_new (old_gas_price n1 n2 : Nat) (config : GasEscalatorConfig)
    (h : n1 ≤ n2) :
    escalatedValue old_gas_price n1 config ≤ escalatedValue old_gas_price n2 config := by
  unfold escalatedValue
  gcongr

/-- C6: for a fixed old price and configuration, the escalated scalar is
non-decreasing in the new price whenever both computations succeed. -/
theorem escalation_monotone_in_new_price (old_gas_price n1 n2 r1 r2 : Nat)
    (config : GasEscalatorConfig) (h12 : n1 ≤ n2)
    (h1 : get_escalated_price_from_old_and_new old_gas_price n1 config = some r1)
    (h2 : get_escalated_price_from_old_and_new old_gas_price n2 config = some r2) :
    r1 ≤ r2 := by
  rw [get_escalated_some_value old_gas_price n1 r1 config h1,
    get_escalated_some_value old_gas_price n2 r2 config h2]
  exact escalatedValue_mono_new old_gas_price n1 n2 config h12

/-- C6 witness: monotonicity applied at old price 200000 and new prices
100000 ≤ 219000 with the default configuration. -/
theorem escalation_monotone_in_new_price_witness :
    (100000 : Nat) ≤ 219000 ∧ (192500 : Nat) ≤ 240900 :=
  ⟨by decide,
    escalation_monotone_in_new_price 200000 100000 219000 192500 240900
      GasEscalatorConfig.default (by decide) rfl rfl⟩

/-- Two price records carry the same variant (both absent, both single-price, or
both dual-price). -/
def GasPrice.sameVariant : GasPrice → GasPrice → Bool
  | GasPrice.None, GasPrice.None => true
  | GasPrice.NonEip1559 _, GasPrice.NonEip1559 _ => true
  | GasPrice.Eip1559 _ _, GasPrice.Eip1559 _ _ => true
  | _, _ => false

/-- C3: escalation never changes the fee-pricing scheme: for matching non-absent
inputs, any produced result has the same variant as both inputs. -/
theorem escalation_preserves_variant (p q r : GasPrice) (config : GasEscalatorConfig)
    (hpq : GasPrice.sameVariant p q = true) (hp : p ≠ GasPrice.None)
    (h : escalate_gas_price_if_needed p q config = some r) :
    GasPrice.sameVariant p r = true ∧ GasPrice.sameVariant q r = true := by
  cases p with
  | None => exact absurd rfl hp
  | NonEip1559 o =>
    cases q with
    | None => exact Bool.noConfusion hpq
    | NonEip1559 n =>
      obtain ⟨v, hv, rfl⟩ := (escalate_nonEip1559_eq_some o n config r).1 h
      exact ⟨rfl, rfl⟩
    | Eip1559 c d => exact Bool.noConfusion hpq
  | Eip1559 a b =>
    cases q with
    | None => exact Bool.noConfusion hpq
    | NonEip1559 n => exact Bool.noConfusion hpq
    | Eip1559 c d =>
      obtain ⟨mf, pf, hmf, hpf, rfl⟩ := (escalate_eip1559_eq_some a b c d config r).1 h
      exact ⟨rfl, rfl⟩

/-- C3 witness: variant preservation applied to a concrete single-price pair under
the default configuration. -/
theorem escalation_preserves_variant_witness :
    GasPrice.sameVariant (GasPrice.NonEip1559 100) (GasPrice.NonEip1559 110) = true ∧
      GasPrice.sameVariant (GasPrice.NonEip1559 100) (GasPrice.NonEip1559 110) = true :=
  escalation_preserves_variant (GasPrice.NonEip1559 100) (GasPrice.NonEip1559 100)
    (GasPrice.NonEip1559 110) GasEscalatorConfig.default rfl (by decide) rfl

/-- C7: for dual-price inputs the two components escalate independently: changing
only the priority-fee pair never changes the computed max fee, and changing only
the max-fee pair never changes the computed priority fee. -/
theorem dual_price_components_independent (config : GasEscalatorConfig) :
    (∀ omf nmf opf1 npf1 opf2 npf2 mf1 pf1 mf2 pf2 : Nat,
      escalate_gas_price_if_needed (GasPrice.Eip1559 omf opf1) (GasPrice.Eip1559 nmf npf1)
          config = some (GasPrice.Eip1559 mf1 pf1) →
      escalate_gas_price_if_needed (GasPrice.Eip1559 omf opf2) (GasPrice.Eip1559 nmf npf2)
          config = some (GasPrice.Eip1559 mf2 pf2) →
      mf1 = mf2) ∧
    (∀ opf npf omf1 nmf1 omf2 nmf2 mf1 pf1 mf2 pf2 : Nat,
      escalate_gas_price_if_needed (GasPrice.Eip1559 omf1 opf) (GasPrice.Eip1559 nmf1 npf)
          config = some (GasPrice.Eip1559 mf1 pf1) →
      escalate_gas_price_if_needed (GasPrice.Eip1559 omf2 opf) (GasPrice.Eip1559 nmf2 npf)
          config = some (GasPrice.Eip1559 mf2 pf2) →
      pf1 = pf2) := by
  constructor
  · intro omf nmf opf1 npf1 opf2 npf2 mf1 pf1 mf2 pf2 h1 h2
    obtain ⟨a1, b1, ha1, hb1, he1⟩ := (escalate_eip1559_eq_some _ _ _ _ config _).1 h1
    obtain ⟨a2, b2, ha2, hb2, he2⟩ := (escalate_eip1559_eq_some _ _ _ _ config _).1 h2
    cases he1
    cases he2
    exact Option.some.inj (ha1.symm.trans ha2)
  · intro opf npf omf1 nmf1 omf2 nmf2 mf1 pf1 mf2 pf2 h1 h2
    obtain ⟨a1, b1, ha1, hb1, he1⟩ := (escalate_eip1559_eq_some _ _ _ _ config _).1 h1
    obtain ⟨a2, b2, ha2, hb2, he2⟩ := (escalate_eip1559_eq_some _ _ _ _ config _).1 h2
    cases he1
    cases he2
    exact Option.some.inj (hb1.symm.trans hb2)

/-- C7 witness: independence applied at concrete dual-price inputs that differ only
in the priority-fee pair; the computed max fee is 110 in both runs. -/
theorem dual_price_components_independent_witness :
    escalate_gas_price_if_needed (GasPrice.Eip1559 100 10) (GasPrice.Eip1559 100 10)
        GasEscalatorConfig.default = some (GasPrice.Eip1559 110 11) ∧
      escalate_gas_price_if_needed (GasPrice.Eip1559 100 20) (GasPrice.Eip1559 100 20)
        GasEscalatorConfig.default = some (GasPrice.Eip1559 110 22) ∧
      (110 : Nat) = 110 :=
  ⟨rfl, rfl,
    (dual_price_components_independent GasEscalatorConfig.default).1
      100 100 10 10 20 20 110 11 110 22 rfl rfl⟩

/-- C8: under the documented preconditions (non-zero multiplier denominator,
non-zero weight sum, `u32`-ranged weights, and intermediate products that fit in
256 bits) the escalation arithmetic never divides by zero and never overflows:
every check in the `Option` chain passes and the closed-form value is returned. -/
theorem escalation_arithmetic_never_fails (old_gas_price new_gas_price : Nat)
    (config : GasEscalatorConfig)
    (hden : config.escalation_multiplier_denominator ≠ 0)
    (hwsum : config.twap_history_weight + config.twap_current_weight ≠ 0)
    (hhw : config.twap_history_weight < 2 ^ 32)
    (hcw : config.twap_current_weight < 2 ^ 32)
    (hsum : old_gas_price * config.twap_history_weight
      + new_gas_price * config.twap_current_weight < U256.size)
    (hblend : (old_gas_price * config.twap_history_weight
        + new_gas_price * config.twap_current_weight)
      / (config.twap_history_weight + config.twap_current_weight)
      * config.escalation_multiplier_numerator < U256.size)
    (horacle : new_gas_price * config.escalation_multiplier_numerator < U256.size) :
    get_escalated_price_from_old_and_new old_gas_price new_gas_price config
      = some (escalatedValue old_gas_price new_gas_price config) := by
  rw [get_escalated_eq_some_iff]
  refine ⟨⟨?_, ?_, hsum, ?_, hwsum, hblend, hden, horacle⟩, rfl⟩
  · exact lt_of_le_of_lt (Nat.le_add_right _ _) hsum
  · exact lt_of_le_of_lt (Nat.le_add_left _ _) hsum
  · calc config.twap_history_weight + config.twap_current_weight
        < 2 ^ 32 + 2 ^ 32 := Nat.add_lt_add hhw hcw
      _ ≤ U256.size := by norm_num [U256.size]

/-- C8 witness: the safety theorem applied at the concrete regression input with
the default configuration. -/
theorem escalation_arithmetic_never_fails_witness :
    get_escalated_price_from_old_and_new 200000 219000 GasEscalatorConfig.default
      = some (escalatedValue 200000 219000 GasEscalatorConfig.default) :=
  escalation_arithmetic_never_fails 200000 219000 GasEscalatorConfig.default
    (by decide) (by decide) (by decide) (by decide) (by decide) (by decide) (by decide)

/-- C9: building the configuration from an override record resolves each of the four
fields independently: the override value when set (and in `u32` range) and the
corresponding default (110, 100, 3, 1) when unset. -/
theorem config_overrides_defaults (o : TransactionOverrides)
    (h1 : ∀ v ∈ o.gas_escalator_multiplier_numerator, v < 2 ^ 32)
    (h2 : ∀ v ∈ o.gas_escalator_multiplier_denominator, v < 2 ^ 32)
    (h3 : ∀ v ∈ o.gas_escalator_history_weight, v < 2 ^ 32)
    (h4 : ∀ v ∈ o.gas_escalator_current_weight, v < 2 ^ 32) :
    GasEscalatorConfig.from_overrides o = some
      { escalation_multiplier_numerator := o.gas_escalator_multiplier_numerator.getD 110
        escalation_multiplier_denominator := o.gas_escalator_multiplier_denominator.getD 100
        twap_history_weight := o.gas_escalator_history_weight.getD 3
        twap_current_weight := o.gas_escalator_current_weight.getD 1 } := by
  obtain ⟨f1, f2, f3, f4⟩ := o
  cases f1 <;> cases f2 <;> cases f3 <;> cases f4 <;>
    simp_all [GasEscalatorConfig.from_overrides, resolve_override_field, as_u32,
      GasEscalatorConfig.default]

/-- C9 witness: the override record that sets exactly 200/100 and weights 1:1
resolves to the configuration with exactly those four values. -/
theorem config_overrides_defaults_witness :
    GasEscalatorConfig.from_overrides
        { gas_escalator_multiplier_numerator := some 200
          gas_escalator_multiplier_denominator := some 100
          gas_escalator_history_weight := some 1
          gas_escalator_current_weight := some 1 }
      = some
        { escalation_multiplier_numerator := 200
          escalation_multiplier_denominator := 100
          twap_history_weight := 1
          twap_current_weight := 1 } := by
  have h := config_overrides_defaults
    ⟨some 200, some 100, some 1, some 1⟩ (by simp) (by simp) (by simp) (by simp)
  simpa using h
